import Mathlib

/-!
Verification of the document lifecycle manager of
`linshare-editor-onlyoffice-backend` (`src/lib/document.js`).

The repository ships two near-identical variants of the `Document` class:
a simpler one (namespace `DocumentV1` below) and a security-hardened one
(namespace `Document` below).  Both are embedded shallowly: the metadata
store, the filesystem cache and the notification bus are explicit values
threaded through each operation, and each fallible external primitive
(store read/write, file write/delete, remote download, remote metadata
fetch) takes its outcome from an explicit oracle argument, so that every
possible interleaving of failures of the JavaScript `await` chain is a
concrete input of the Lean function.
-/

/-- The three durable document states of `DOCUMENT_STATES`. -/
inductive DocState where
  | downloading
  | downloaded
  | removed
deriving DecidableEq, Repr

/-- A record of the metadata store, keyed by document uuid.  `key` is the
access key (`accessKey`); the simpler variant never assigns one, hence the
`Option`.  `name` stands for the denormalized metadata snapshot. -/
structure DocRecord where
  uuid : String
  state : DocState
  key : Option String
  name : String
deriving DecidableEq, Repr

/-- Modelled from the spec: the metadata-store module (`../lib/files`,
required by `document.js` but not under `src/`) is a durable key-value
record store keyed by document identifier.  `getByUuid` returns the record
for a uuid, if any. -/
def Files.getByUuid (store : List DocRecord) (uuid : String) : Option DocRecord :=
  store.find? (fun r => r.uuid == uuid)

/-- Modelled from the spec: `Files.updateByUuid(uuid, { state })` — update
only the `state` field of the record with the given uuid; a no-op when no
record has that uuid. -/
def Files.updateStateByUuid (store : List DocRecord) (uuid : String) (s : DocState) :
    List DocRecord :=
  store.map (fun r => if r.uuid == uuid then { r with state := s } else r)

/-- Modelled from the spec: `Files.updateByUuid(uuid, { state, key })` —
update the `state` and `key` fields of the record with the given uuid; a
no-op when no record has that uuid. -/
def Files.updateStateKeyByUuid (store : List DocRecord) (uuid : String) (s : DocState)
    (k : String) : List DocRecord :=
  store.map (fun r => if r.uuid == uuid then { r with state := s, key := some k } else r)

/-- Modelled from the spec: `Files.removeByUuid(uuid)` — physically delete
the record with the given uuid from the store. -/
def Files.removeByUuid (store : List DocRecord) (uuid : String) : List DocRecord :=
  store.filter (fun r => r.uuid != uuid)

/-- Modelled from the spec: `Files.create(document)` — insert a new record
(a denormalized snapshot of the in-memory document object). -/
def Files.create (store : List DocRecord) (r : DocRecord) : List DocRecord :=
  store ++ [r]

/-- Modelled from the spec: `helpers.existsSync(path)` — existence of a file
in the local cache is the only queried fact. -/
def existsSync (fs : List String) (p : String) : Bool :=
  fs.contains p

/-- Modelled from the spec: `helpers.getFileExtension(name)` — the file
extension derived from the document name. -/
def getFileExtension (name : String) : String :=
  match (name.splitOn ".").reverse with
  | [] => ""
  | [_] => ""
  | e :: _ => e

/-- Modelled from the spec: `helpers.getFileType(name)` — the
document-type classification derived from the document name. -/
def getFileType (name : String) : String :=
  let ext := getFileExtension name
  if ["doc", "docx", "odt", "rtf", "txt"].contains ext then "text"
  else if ["xls", "xlsx", "ods", "csv"].contains ext then "spreadsheet"
  else if ["ppt", "pptx", "odp"].contains ext then "presentation"
  else ""

/-- The deterministic cache path of a document:
`path.join(STORAGE_DIR, uuid)`. -/
def filePathOf (uuid : String) : String :=
  "files/" ++ uuid

/-- The in-memory `Document` object (the fields the lifecycle operations
read or write).  `state` and `key` are `Option` because `this.state` and
`this.key` are `undefined` until first assigned. -/
structure Doc where
  uuid : String
  workGroup : String
  filePath : String
  state : Option DocState
  key : Option String
  name : String
  fileType : String
  documentType : String
  downloadUrlPath : Option String
  callbackUrlPath : Option String
  userMail : String
  userFirstName : String
  userLastName : String
deriving DecidableEq, Repr

/-- The `Document` constructor: sets the uuid, the workgroup, the user
identity and the deterministic cache path; everything else is unset. -/
def Document.construct (documentUuid workGroupUuid mail firstName lastName : String) : Doc :=
  { uuid := documentUuid
    workGroup := workGroupUuid
    filePath := filePathOf documentUuid
    state := none
    key := none
    name := ""
    fileType := ""
    documentType := ""
    downloadUrlPath := none
    callbackUrlPath := none
    userMail := mail
    userFirstName := firstName
    userLastName := lastName }

/-- An error surfaced by the remote storage gateway: the optional HTTP
status of `error.response.status` and the transport message. -/
structure RemoteError where
  status : Option Nat
  message : String
deriving DecidableEq, Repr

/-- The remote metadata returned by `storageService.getNode`. -/
structure NodeMeta where
  name : String
deriving DecidableEq, Repr

/-- The error `populateMetadata` rejects with: either the domain-specific
`Error('Document not found')` or the original gateway error rethrown
unchanged. -/
inductive PopulateError where
  | notFound
  | transport (e : RemoteError)
deriving DecidableEq, Repr

/-- The error a lifecycle operation rejects with. -/
inductive SaveError where
  | download (msg : String)
  | cacheWrite
  | storeGet
  | storeWrite
  | populate (e : PopulateError)
  | removeUpdate
  | removeDelete
deriving DecidableEq, Repr

/-- The error `remove` rejects with: its store update failed, or its file
deletion failed. -/
inductive RemoveError where
  | update
  | delete
deriving DecidableEq, Repr

/-- Observable effects, in issue order.  A store event is logged only when
the durable write succeeded; a `fileDelete`/`fileWrite` event is logged
when the operation is issued, before its outcome is known. -/
inductive Ev where
  | storeUpdate (uuid : String) (s : DocState)
  | storeCreate (uuid : String) (s : DocState)
  | storeRemove (uuid : String)
  | fileWrite (p : String)
  | fileDelete (p : String)
  | download (uuid : String)
  | getNode (uuid : String)
  | publishDownloaded (d : Doc)
  | publishFailed (d : Doc) (e : SaveError)
deriving DecidableEq, Repr

/-- The world a lifecycle operation acts on: the metadata store, the set of
cached file paths, and the log of effects issued so far. -/
structure World where
  store : List DocRecord
  fs : List String
  log : List Ev
deriving DecidableEq, Repr

/-- The denormalized snapshot `Files.create(this)` stores. -/
def docToRecord (doc : Doc) : DocRecord :=
  { uuid := doc.uuid
    state := doc.state.getD DocState.downloading
    key := doc.key
    name := doc.name }

/-- `isDownloaded()` of both variants: the cached file exists at the
document's path and the in-memory state equals `downloaded`. -/
def Document.isDownloaded (doc : Doc) (fs : List String) : Bool :=
  existsSync fs doc.filePath && doc.state == some DocState.downloaded

/-- `isDownloading()` of both variants. -/
def Document.isDownloading (doc : Doc) : Bool :=
  doc.state == some DocState.downloading

/-- `populateMetadata` of the hardened variant: a gateway failure with
HTTP status 404 is replaced by `Error('Document not found')`; any other
gateway failure is rethrown unchanged.  On success the derived fields are
assigned, and the download/callback URL paths only when the document is
downloaded. -/
def Document.populateMetadata (doc : Doc) (fs : List String)
    (getNodeRes : Except RemoteError NodeMeta) : Except PopulateError Doc :=
  match getNodeRes with
  | .error e =>
      if e.status == some 404 then .error PopulateError.notFound
      else .error (PopulateError.transport e)
  | .ok node =>
      let base := { doc with
        name := node.name
        fileType := getFileExtension node.name
        documentType := getFileType node.name }
      if Document.isDownloaded doc fs then
        .ok { base with
          downloadUrlPath := some ("/files/" ++ doc.uuid)
          callbackUrlPath := some ("/api/documents/track?workGroupUuid="
            ++ doc.workGroup ++ "&documentUuid=" ++ doc.uuid) }
      else
        .ok base

/-- `populateMetadata` of the simpler variant: no error handling at all —
every gateway failure, a 404 included, is propagated to the caller
unchanged. -/
def DocumentV1.populateMetadata (doc : Doc)
    (getNodeRes : Except RemoteError NodeMeta) : Except PopulateError Doc :=
  match getNodeRes with
  | .error e => .error (PopulateError.transport e)
  | .ok node =>
      .ok { doc with
        name := node.name
        fileType := getFileExtension node.name
        documentType := getFileType node.name }

/-- `setState(state)` of the hardened variant.  The in-memory assignment
`this.state = state` happens first; then the record is looked up: if it
exists, only its `state` field is updated; otherwise a fresh key is
generated (`this.key = uuidV4()`) and the record is created.  `getOk` and
`writeOk` are the outcomes of the store read and the store write; a
failing store operation leaves the store unchanged. -/
def Document.setState (doc : Doc) (w : World) (s : DocState)
    (getOk writeOk : Bool) (freshKey : String) :
    Doc × World × Option SaveError :=
  let doc := { doc with state := some s }
  if !getOk then (doc, w, some SaveError.storeGet)
  else
    match Files.getByUuid w.store doc.uuid with
    | some _ =>
        if writeOk then
          (doc,
           { w with
             store := Files.updateStateByUuid w.store doc.uuid s
             log := w.log ++ [Ev.storeUpdate doc.uuid s] },
           none)
        else (doc, w, some SaveError.storeWrite)
    | none =>
        let doc := { doc with key := some freshKey }
        if writeOk then
          (doc,
           { w with
             store := Files.create w.store (docToRecord doc)
             log := w.log ++ [Ev.storeCreate doc.uuid s] },
           none)
        else (doc, w, some SaveError.storeWrite)

/-- `setState(state)` of the simpler variant: identical, except that no
key is generated when the record is created. -/
def DocumentV1.setState (doc : Doc) (w : World) (s : DocState)
    (getOk writeOk : Bool) : Doc × World × Option SaveError :=
  let doc := { doc with state := some s }
  if !getOk then (doc, w, some SaveError.storeGet)
  else
    match Files.getByUuid w.store doc.uuid with
    | some _ =>
        if writeOk then
          (doc,
           { w with
             store := Files.updateStateByUuid w.store doc.uuid s
             log := w.log ++ [Ev.storeUpdate doc.uuid s] },
           none)
        else (doc, w, some SaveError.storeWrite)
    | none =>
        if writeOk then
          (doc,
           { w with
             store := Files.create w.store (docToRecord doc)
             log := w.log ++ [Ev.storeCreate doc.uuid s] },
           none)
        else (doc, w, some SaveError.storeWrite)

/-- `remove()` of the hardened variant:
`await Files.updateByUuid(uuid, { state: removed, key: uuidV4() })`, then
`await deleteFile(filePath)`.  If the store update fails, the rejection
propagates and the file deletion is never issued. -/
def Document.remove (doc : Doc) (w : World) (freshKey : String)
    (updateOk deleteOk : Bool) : World × Option RemoveError :=
  if !updateOk then (w, some RemoveError.update)
  else
    let w1 := { w with
      store := Files.updateStateKeyByUuid w.store doc.uuid DocState.removed freshKey
      log := w.log ++ [Ev.storeUpdate doc.uuid DocState.removed] }
    let w2 := { w1 with log := w1.log ++ [Ev.fileDelete doc.filePath] }
    if deleteOk then
      ({ w2 with fs := w2.fs.filter (fun p => p != doc.filePath) }, none)
    else (w2, some RemoveError.delete)

/-- The outcomes of the external primitives one `save()` call may issue,
in call order: the remote download, the cache byte write, the store read
and write of `setState(downloaded)` and its fresh key, the remote metadata
fetch of `populateMetadata`, and — on the rollback path — the store update
of `remove()` with its fresh key and the cache file deletion. -/
structure SaveOracle where
  downloadRes : Except String String
  writeOk : Bool
  ssGetOk : Bool
  ssWriteOk : Bool
  ssFreshKey : String
  getNodeRes : Except RemoteError NodeMeta
  rmUpdateOk : Bool
  rmFreshKey : String
  rmDeleteOk : Bool
deriving Repr

/-- The `catch` block of the hardened `save()`: `await this.remove()` —
whose own rejection propagates instead, skipping the rest of the block —
then publish `DOCUMENT_DOWNLOAD_FAILED` with the document and the
triggering error, then rethrow the triggering error. -/
def Document.saveRollback (doc : Doc) (w : World) (o : SaveOracle)
    (err : SaveError) : Doc × World × Option SaveError :=
  match Document.remove doc w o.rmFreshKey o.rmUpdateOk o.rmDeleteOk with
  | (w1, some RemoveError.update) => (doc, w1, some SaveError.removeUpdate)
  | (w1, some RemoveError.delete) => (doc, w1, some SaveError.removeDelete)
  | (w1, none) =>
      (doc, { w1 with log := w1.log ++ [Ev.publishFailed doc err] }, some err)

/-- A successful cache byte write adds the path; a failed one may leave
partial bytes behind, modelled as the path being present as well. -/
def writeFilePath (fs : List String) (p : String) : List String :=
  if fs.contains p then fs else fs ++ [p]

/-- `save()` of the hardened variant: download the bytes, write them to
the cache, `setState(downloaded)`, `populateMetadata()`, publish
`DOCUMENT_DOWNLOADED`; any rejection along the way enters the rollback
(`saveRollback`).  No `downloading` state is written by this variant. -/
def Document.save (doc : Doc) (w : World) (o : SaveOracle) :
    Doc × World × Option SaveError :=
  match o.downloadRes with
  | .error msg =>
      Document.saveRollback doc { w with log := w.log ++ [Ev.download doc.uuid] } o
        (SaveError.download msg)
  | .ok _ =>
      let w1 := { w with log := w.log ++ [Ev.download doc.uuid, Ev.fileWrite doc.filePath] }
      if !o.writeOk then
        Document.saveRollback doc { w1 with fs := writeFilePath w1.fs doc.filePath } o
          SaveError.cacheWrite
      else
        let w2 := { w1 with fs := writeFilePath w1.fs doc.filePath }
        match Document.setState doc w2 DocState.downloaded o.ssGetOk o.ssWriteOk o.ssFreshKey with
        | (doc1, w3, some e) => Document.saveRollback doc1 w3 o e
        | (doc1, w3, none) =>
            let w4 := { w3 with log := w3.log ++ [Ev.getNode doc1.uuid] }
            match Document.populateMetadata doc1 w4.fs o.getNodeRes with
            | .error pe => Document.saveRollback doc1 w4 o (SaveError.populate pe)
            | .ok doc2 =>
                (doc2, { w4 with log := w4.log ++ [Ev.publishDownloaded doc2] }, none)

/-- The browser-signature configuration
`config.get('documentServer.signature.browser')`. -/
structure BrowserSignatureConfig where
  enable : Bool
  secret : String
  algorithm : String
  expiresIn : String
deriving DecidableEq, Repr

/-- The `document` part of the editing-service payload. -/
structure PayloadDocument where
  fileType : String
  title : String
  url : String
  key : Option String
deriving DecidableEq, Repr

/-- The `editorConfig.user` part of the editing-service payload. -/
structure EditorUser where
  id : String
  name : String
deriving DecidableEq, Repr

/-- The `editorConfig` part of the editing-service payload. -/
structure EditorConfig where
  user : EditorUser
  callbackUrl : String
  forcesave : Bool
deriving DecidableEq, Repr

/-- The editing-service payload `buildDocumentserverPayload` returns. -/
structure DocumentserverPayload where
  document : PayloadDocument
  documentType : String
  editorConfig : EditorConfig
  token : Option String
deriving DecidableEq, Repr

/-- `buildDocumentserverPayload()` of the hardened variant: assemble the
payload (embedding `this.key` as `document.key`), then, when browser
signing is enabled, attach a token computed by the external signer over
that same payload.  In a template literal an `undefined` URL path renders
as the string `undefined`. -/
def Document.buildDocumentserverPayload (doc : Doc) (baseUrl : String)
    (cfg : BrowserSignatureConfig) (sign : DocumentserverPayload → String) :
    DocumentserverPayload :=
  let payload : DocumentserverPayload :=
    { document :=
        { fileType := doc.fileType
          title := doc.name
          url := baseUrl ++ doc.downloadUrlPath.getD "undefined"
          key := doc.key }
      documentType := doc.documentType
      editorConfig :=
        { user :=
            { id := doc.userMail
              name := doc.userFirstName ++ " " ++ doc.userLastName }
          callbackUrl := baseUrl ++ doc.callbackUrlPath.getD "undefined"
          forcesave := true }
      token := none }
  if !cfg.enable then payload
  else { payload with token := some (sign payload) }

/-- `remove()` of the simpler variant:
`await Files.removeByUuid(uuid)` — a physical deletion of the record —
then `await deleteFile(filePath)`. -/
def DocumentV1.remove (doc : Doc) (w : World)
    (removeOk deleteOk : Bool) : World × Option RemoveError :=
  if !removeOk then (w, some RemoveError.update)
  else
    let w1 := { w with
      store := Files.removeByUuid w.store doc.uuid
      log := w.log ++ [Ev.storeRemove doc.uuid] }
    let w2 := { w1 with log := w1.log ++ [Ev.fileDelete doc.filePath] }
    if deleteOk then
      ({ w2 with fs := w2.fs.filter (fun p => p != doc.filePath) }, none)
    else (w2, some RemoveError.delete)

/-! ## Store lemmas -/

/-- `find?` by uuid commutes with a uuid-preserving map of the store. -/
theorem find_uuid_map (f : DocRecord → DocRecord)
    (hf : ∀ r, (f r).uuid = r.uuid) (st : List DocRecord) (v : String) :
    (st.map f).find? (fun r => r.uuid == v) =
      (st.find? (fun r => r.uuid == v)).map f := by
  induction st with
  | nil => rfl
  | cons r t ih =>
      simp only [List.map_cons, List.find?, hf]
      cases h : (r.uuid == v) <;> simp [h, ih]

/-- Looking up any uuid after `updateStateKeyByUuid`. -/
theorem getByUuid_updateStateKey (st : List DocRecord) (u v : String)
    (s : DocState) (k : String) :
    Files.getByUuid (Files.updateStateKeyByUuid st u s k) v =
      (Files.getByUuid st v).map
        (fun r => if r.uuid == u then { r with state := s, key := some k } else r) := by
  unfold Files.getByUuid Files.updateStateKeyByUuid
  exact find_uuid_map _ (fun r => by by_cases h : r.uuid == u <;> simp [h]) st v

/-- Looking up any uuid after `updateStateByUuid`. -/
theorem getByUuid_updateState (st : List DocRecord) (u v : String) (s : DocState) :
    Files.getByUuid (Files.updateStateByUuid st u s) v =
      (Files.getByUuid st v).map
        (fun r => if r.uuid == u then { r with state := s } else r) := by
  unfold Files.getByUuid Files.updateStateByUuid
  exact find_uuid_map _ (fun r => by by_cases h : r.uuid == u <;> simp [h]) st v

/-- After `removeByUuid u`, the uuid `u` has no record. -/
theorem getByUuid_removeByUuid_self (st : List DocRecord) (u : String) :
    Files.getByUuid (Files.removeByUuid st u) u = none := by
  induction st with
  | nil => rfl
  | cons r t ih =>
      unfold Files.getByUuid Files.removeByUuid at *
      simp only [List.filter]
      cases h : (r.uuid == u) <;> simp [h, bne, List.find?, ih]

/-- Looking up a uuid after `create`. -/
theorem getByUuid_create (st : List DocRecord) (rec : DocRecord) (v : String) :
    Files.getByUuid (Files.create st rec) v =
      (Files.getByUuid st v).or (if rec.uuid == v then some rec else none) := by
  unfold Files.getByUuid Files.create
  rw [List.find?_append]
  cases h : (rec.uuid == v) <;> simp [h, List.find?]

/-! ## Claims -/

/-- **C1** (counterexample): `buildDocumentserverPayload` performs no state
check.  For a concrete document whose state is `downloading`, it returns a
payload embedding the document's access key. -/
theorem buildPayload_ignores_state_cex :
    ({ Document.construct "doc-1" "wg-1" "ada@example.com" "Ada" "Lovelace" with
        state := some DocState.downloading, key := some "K1" } : Doc).state
      = some DocState.downloading ∧
    (Document.buildDocumentserverPayload
      { Document.construct "doc-1" "wg-1" "ada@example.com" "Ada" "Lovelace" with
        state := some DocState.downloading, key := some "K1" }
      "http://backend" { enable := false, secret := "", algorithm := "", expiresIn := "" }
      (fun _ => "tok")).document.key = some "K1" :=
  ⟨rfl, rfl⟩

/-- **C1** (amended): `buildDocumentserverPayload` embeds the document's
current key in the returned payload for every document, regardless of its
state; the state gate is not enforced by this operation. -/
theorem buildPayload_embeds_key_regardless_of_state
    (doc : Doc) (baseUrl : String) (cfg : BrowserSignatureConfig)
    (sign : DocumentserverPayload → String) :
    (Document.buildDocumentserverPayload doc baseUrl cfg sign).document.key = doc.key := by
  unfold Document.buildDocumentserverPayload
  by_cases h : cfg.enable <;> simp [h]

/-- **C5**: `isDownloaded` is true iff the cached file exists at the
document's deterministic path and the state equals `downloaded`; and each
conjunct alone is insufficient. -/
theorem isDownloaded_iff_file_and_state :
    (∀ (doc : Doc) (fs : List String),
      Document.isDownloaded doc fs = true ↔
        doc.filePath ∈ fs ∧ doc.state = some DocState.downloaded) ∧
    (∃ (doc : Doc) (fs : List String),
      doc.filePath ∈ fs ∧ Document.isDownloaded doc fs = false) ∧
    (∃ (doc : Doc) (fs : List String),
      doc.state = some DocState.downloaded ∧ Document.isDownloaded doc fs = false) := by
  refine ⟨?_, ?_, ?_⟩
  · intro doc fs
    simp [Document.isDownloaded, existsSync, List.elem_iff, List.contains]
  · exact ⟨Document.construct "doc-1" "wg-1" "" "" "", [filePathOf "doc-1"],
      by simp [Document.construct], by rfl⟩
  · exact ⟨{ Document.construct "doc-1" "wg-1" "" "" "" with
        state := some DocState.downloaded }, [], by rfl, by rfl⟩

/-- **C6** (counterexample): the simpler variant's `remove` physically
deletes the metadata record: for a concrete store holding the record of
`doc-1`, the record is gone after `remove`. -/
theorem removeV1_deletes_record_cex :
    Files.getByUuid
      [{ uuid := "doc-1", state := DocState.downloaded, key := some "K1", name := "a.docx" }]
      "doc-1"
      = some { uuid := "doc-1", state := DocState.downloaded, key := some "K1", name := "a.docx" } ∧
    Files.getByUuid
      ((DocumentV1.remove (Document.construct "doc-1" "wg-1" "" "" "")
        { store := [{ uuid := "doc-1", state := DocState.downloaded,
                      key := some "K1", name := "a.docx" }],
          fs := [filePathOf "doc-1"], log := [] } true true).1).store "doc-1" = none := by
  constructor
  · rfl
  · rfl

/-- **C6** (amended): the hardened variant's `remove` never physically
deletes any metadata record — after `remove`, a record is present in the
store for a uuid exactly when one was present before — while the simpler
variant's `remove` deletes the record outright. -/
theorem remove_preserves_record_presence
    (doc : Doc) (w : World) (freshKey : String) (updateOk deleteOk : Bool) (u : String) :
    (Files.getByUuid ((Document.remove doc w freshKey updateOk deleteOk).1).store u).isSome
      = (Files.getByUuid w.store u).isSome := by
  unfold Document.remove
  by_cases hu : updateOk
  · by_cases hd : deleteOk <;> simp [hu, hd, getByUuid_updateStateKey]
  · simp [hu]

/-- The access key currently stored for a uuid, if a record exists and
holds one. -/
def storedKey (store : List DocRecord) (u : String) : Option String :=
  match Files.getByUuid store u with
  | some r => r.key
  | none => none

/-- **C2**: key rotation on removal is irreversible forward-only.  If a
record exists for the document and the generated key is distinct from
every previously stored key (the key-generator freshness hypothesis), then
after `remove` the stored key is the fresh key and differs from every key
stored before the transition. -/
theorem remove_rotates_key_irreversibly
    (doc : Doc) (w : World) (freshKey : String) (deleteOk : Bool)
    (prevKeys : List String) (r : DocRecord)
    (hrec : Files.getByUuid w.store doc.uuid = some r)
    (hfresh : freshKey ∉ prevKeys) :
    storedKey ((Document.remove doc w freshKey true deleteOk).1).store doc.uuid
      = some freshKey ∧
    ∀ k ∈ prevKeys,
      storedKey ((Document.remove doc w freshKey true deleteOk).1).store doc.uuid
        ≠ some k := by
  have hrec2 : w.store.find? (fun x => x.uuid == doc.uuid) = some r := hrec
  have hueq : r.uuid = doc.uuid := by
    have h0 := List.find?_some hrec2
    simpa using h0
  have hkey : storedKey ((Document.remove doc w freshKey true deleteOk).1).store doc.uuid
      = some freshKey := by
    unfold Document.remove
    by_cases hd : deleteOk <;>
      simp [hd, storedKey, getByUuid_updateStateKey, hrec, hueq]
  refine ⟨hkey, ?_⟩
  intro k hk
  rw [hkey]
  intro hcontra
  have hfk : freshKey = k := by injection hcontra
  exact hfresh (by rw [hfk]; exact hk)

/-- **C2** (witness): the rotation theorem at a concrete store holding the
record of `doc-1` with old key `K1`, fresh key `K9`. -/
theorem remove_rotates_key_irreversibly_witness :
    storedKey ((Document.remove (Document.construct "doc-1" "wg-1" "" "" "")
        { store := [{ uuid := "doc-1", state := DocState.downloaded,
                      key := some "K1", name := "a.docx" }],
          fs := [filePathOf "doc-1"], log := [] } "K9" true true).1).store "doc-1"
      = some "K9" ∧
    ∀ k ∈ ["K1"],
      storedKey ((Document.remove (Document.construct "doc-1" "wg-1" "" "" "")
        { store := [{ uuid := "doc-1", state := DocState.downloaded,
                      key := some "K1", name := "a.docx" }],
          fs := [filePathOf "doc-1"], log := [] } "K9" true true).1).store "doc-1"
      ≠ some k :=
  remove_rotates_key_irreversibly
    (Document.construct "doc-1" "wg-1" "" "" "")
    { store := [{ uuid := "doc-1", state := DocState.downloaded,
                  key := some "K1", name := "a.docx" }],
      fs := [filePathOf "doc-1"], log := [] } "K9" true ["K1"]
    { uuid := "doc-1", state := DocState.downloaded, key := some "K1", name := "a.docx" }
    (by rfl) (by decide)

/-- **C3**: in the hardened `remove`, the durable store write that rotates
the key is always recorded before the cached-file deletion is issued:
every execution either issues no effect at all (the store write failed, so
no deletion is issued and the store is unchanged) or appends exactly the
store update followed by the file deletion, with the rotated store already
in place. -/
theorem remove_orders_rotation_before_deletion
    (doc : Doc) (w : World) (freshKey : String) (updateOk deleteOk : Bool) :
    ((Document.remove doc w freshKey updateOk deleteOk).1.log = w.log ∧
      (Document.remove doc w freshKey updateOk deleteOk).1.store = w.store) ∨
    ((Document.remove doc w freshKey updateOk deleteOk).1.log =
        w.log ++ [Ev.storeUpdate doc.uuid DocState.removed, Ev.fileDelete doc.filePath] ∧
      (Document.remove doc w freshKey updateOk deleteOk).1.store =
        Files.updateStateKeyByUuid w.store doc.uuid DocState.removed freshKey) := by
  unfold Document.remove
  by_cases hu : updateOk
  · by_cases hd : deleteOk <;> simp [hu, hd]
  · simp [hu]

/-- **C8**: `setState` on an existing record updates only its `state`
field — the stored key and snapshot are unchanged, other records are
untouched, and the in-memory key is not regenerated; on a missing record
it creates one carrying a fresh key, also assigned in memory. -/
theorem setState_updates_only_state_or_creates_with_fresh_key
    (doc : Doc) (w : World) (s : DocState) (freshKey : String) :
    (∀ r, Files.getByUuid w.store doc.uuid = some r →
      Files.getByUuid (Document.setState doc w s true true freshKey).2.1.store doc.uuid
        = some { r with state := s } ∧
      (Document.setState doc w s true true freshKey).1.key = doc.key ∧
      (∀ v, v ≠ doc.uuid →
        Files.getByUuid (Document.setState doc w s true true freshKey).2.1.store v
          = Files.getByUuid w.store v)) ∧
    (Files.getByUuid w.store doc.uuid = none →
      Files.getByUuid (Document.setState doc w s true true freshKey).2.1.store doc.uuid
        = some { uuid := doc.uuid, state := s, key := some freshKey, name := doc.name } ∧
      (Document.setState doc w s true true freshKey).1.key = some freshKey) := by
  constructor
  · intro r hr
    have hrec2 : w.store.find? (fun x => x.uuid == doc.uuid) = some r := hr
    have hueq : r.uuid = doc.uuid := by
      have h0 := List.find?_some hrec2
      simpa using h0
    refine ⟨?_, ?_, ?_⟩
    · simp [Document.setState, hr, getByUuid_updateState, hueq]
    · simp [Document.setState, hr]
    · intro v hv
      have hstore : (Document.setState doc w s true true freshKey).2.1.store
          = Files.updateStateByUuid w.store doc.uuid s := by
        simp [Document.setState, hr]
      rw [hstore, getByUuid_updateState]
      cases hfind : Files.getByUuid w.store v with
      | none => rfl
      | some q =>
          have hfind2 : w.store.find? (fun x => x.uuid == v) = some q := hfind
          have hq : q.uuid = v := by
            have h0 := List.find?_some hfind2
            simpa using h0
          simp [hq]
          intro hco
          exact absurd hco hv
  · intro hnone
    constructor
    · have hstore : (Document.setState doc w s true true freshKey).2.1.store
          = Files.create w.store
              (docToRecord { doc with state := some s, key := some freshKey }) := by
        simp [Document.setState, hnone]
      rw [hstore, getByUuid_create]
      simp [hnone, docToRecord]
    · simp [Document.setState, hnone]

/-- **C8** (witness): the frame theorem at a concrete world whose store
holds a record for `doc-1` with key `K1`; the record after
`setState(removed)` keeps `K1`, a foreign record is untouched. -/
theorem setState_updates_only_state_witness :
    Files.getByUuid (Document.setState (Document.construct "doc-1" "wg-1" "" "" "")
        { store := [{ uuid := "doc-1", state := DocState.downloaded,
                      key := some "K1", name := "a.docx" }],
          fs := [], log := [] } DocState.removed true true "K9").2.1.store "doc-1"
      = some { uuid := "doc-1", state := DocState.removed, key := some "K1", name := "a.docx" } ∧
    (Document.setState (Document.construct "doc-1" "wg-1" "" "" "")
        { store := [{ uuid := "doc-1", state := DocState.downloaded,
                      key := some "K1", name := "a.docx" }],
          fs := [], log := [] } DocState.removed true true "K9").1.key = none ∧
    Files.getByUuid (Document.setState (Document.construct "doc-1" "wg-1" "" "" "")
        { store := [{ uuid := "doc-1", state := DocState.downloaded,
                      key := some "K1", name := "a.docx" }],
          fs := [], log := [] } DocState.removed true true "K9").2.1.store "doc-2"
      = Files.getByUuid
          [{ uuid := "doc-1", state := DocState.downloaded, key := some "K1", name := "a.docx" }]
          "doc-2" := by
  have h := (setState_updates_only_state_or_creates_with_fresh_key
    (Document.construct "doc-1" "wg-1" "" "" "")
    { store := [{ uuid := "doc-1", state := DocState.downloaded,
                  key := some "K1", name := "a.docx" }],
      fs := [], log := [] } DocState.removed "K9").1
    { uuid := "doc-1", state := DocState.downloaded, key := some "K1", name := "a.docx" }
    (by rfl)
  exact ⟨h.1, h.2.1, h.2.2 "doc-2" (by decide)⟩

/-- **C9** (counterexample): the simpler variant's `populateMetadata`
propagates a 404 gateway failure unchanged instead of replacing it with
`Error('Document not found')`. -/
theorem populateMetadataV1_propagates_404_cex :
    DocumentV1.populateMetadata (Document.construct "doc-1" "wg-1" "" "" "")
      (Except.error { status := some 404, message := "Request failed with status code 404" })
      = Except.error (PopulateError.transport
          { status := some 404, message := "Request failed with status code 404" }) ∧
    DocumentV1.populateMetadata (Document.construct "doc-1" "wg-1" "" "" "")
      (Except.error { status := some 404, message := "Request failed with status code 404" })
      ≠ Except.error PopulateError.notFound := by
  constructor
  · rfl
  · simp [DocumentV1.populateMetadata]

/-- **C9** (amended): in the hardened variant a gateway failure with HTTP
status 404 is surfaced as the domain-specific `Document not found` error
and every other gateway failure is propagated unchanged; the simpler
variant propagates every gateway failure unchanged, a 404 included. -/
theorem populateMetadata_notFound_mapping
    (doc : Doc) (fs : List String) (e : RemoteError) :
    (e.status = some 404 →
      Document.populateMetadata doc fs (Except.error e)
        = Except.error PopulateError.notFound) ∧
    (e.status ≠ some 404 →
      Document.populateMetadata doc fs (Except.error e)
        = Except.error (PopulateError.transport e)) ∧
    DocumentV1.populateMetadata doc (Except.error e)
      = Except.error (PopulateError.transport e) := by
  refine ⟨?_, ?_, rfl⟩
  · intro h
    simp [Document.populateMetadata, h]
  · intro h
    simp [Document.populateMetadata, h]

/-- **C9** (witness): the mapping theorem evaluated at a 404 gateway
failure. -/
theorem populateMetadata_notFound_mapping_witness :
    Document.populateMetadata (Document.construct "doc-1" "wg-1" "" "" "") []
      (Except.error { status := some 404, message := "Request failed with status code 404" })
      = Except.error PopulateError.notFound :=
  (populateMetadata_notFound_mapping (Document.construct "doc-1" "wg-1" "" "" "") []
    { status := some 404, message := "Request failed with status code 404" }).1 rfl

/-- **C10**: the in-memory assignment `this.state = state` precedes every
store operation in `setState`, in both variants: whenever the store read
or the store write fails, the call rejects, the in-memory object already
reports the new state, and the durable store is unchanged. -/
theorem setState_inmemory_precedes_store
    (doc : Doc) (w : World) (s : DocState) (getOk writeOk : Bool) (freshKey : String)
    (hfail : getOk = false ∨ writeOk = false) :
    (Document.setState doc w s getOk writeOk freshKey).1.state = some s ∧
    (Document.setState doc w s getOk writeOk freshKey).2.1.store = w.store ∧
    (Document.setState doc w s getOk writeOk freshKey).2.2.isSome = true ∧
    (DocumentV1.setState doc w s getOk writeOk).1.state = some s ∧
    (DocumentV1.setState doc w s getOk writeOk).2.1.store = w.store ∧
    (DocumentV1.setState doc w s getOk writeOk).2.2.isSome = true := by
  rcases hfail with h | h <;> subst h
  · simp [Document.setState, DocumentV1.setState]
  · cases hg : getOk
    · simp [Document.setState, DocumentV1.setState]
    · cases hfind : Files.getByUuid w.store doc.uuid <;>
        simp [Document.setState, DocumentV1.setState, hfind]

/-- **C10** (witness): a failing store write at a concrete input: the
in-memory document reports `downloaded`, the store is unchanged, the call
rejects. -/
theorem setState_inmemory_precedes_store_witness :
    (Document.setState (Document.construct "doc-1" "wg-1" "" "" "")
        { store := [], fs := [], log := [] } DocState.downloaded true false "K9").1.state
      = some DocState.downloaded ∧
    (Document.setState (Document.construct "doc-1" "wg-1" "" "" "")
        { store := [], fs := [], log := [] } DocState.downloaded true false "K9").2.1.store
      = [] ∧
    (Document.setState (Document.construct "doc-1" "wg-1" "" "" "")
        { store := [], fs := [], log := [] } DocState.downloaded true false "K9").2.2.isSome
      = true ∧
    (DocumentV1.setState (Document.construct "doc-1" "wg-1" "" "" "")
        { store := [], fs := [], log := [] } DocState.downloaded true false).1.state
      = some DocState.downloaded ∧
    (DocumentV1.setState (Document.construct "doc-1" "wg-1" "" "" "")
        { store := [], fs := [], log := [] } DocState.downloaded true false).2.1.store
      = [] ∧
    (DocumentV1.setState (Document.construct "doc-1" "wg-1" "" "" "")
        { store := [], fs := [], log := [] } DocState.downloaded true false).2.2.isSome
      = true :=
  setState_inmemory_precedes_store (Document.construct "doc-1" "wg-1" "" "" "")
    { store := [], fs := [], log := [] } DocState.downloaded true false "K9" (Or.inr rfl)

/-- The cache path just written is always present afterwards. -/
theorem mem_writeFilePath (fs : List String) (p : String) :
    p ∈ writeFilePath fs p := by
  unfold writeFilePath
  by_cases h : p ∈ fs <;> simp [h]

/-- **C7** (counterexample): a fully successful hardened `save` writes
state `downloaded` (the store-create event at position 2) before the
metadata refresh (the `getNode` call at position 3) — not after it. -/
theorem save_writes_state_before_metadata_refresh_cex :
    (Document.save (Document.construct "doc-1" "wg-1" "ada@example.com" "Ada" "Lovelace")
      { store := [], fs := [], log := [] }
      { downloadRes := Except.ok "bytes", writeOk := true, ssGetOk := true,
        ssWriteOk := true, ssFreshKey := "K1", getNodeRes := Except.ok { name := "a.docx" },
        rmUpdateOk := true, rmFreshKey := "K2", rmDeleteOk := true }).2.2 = none ∧
    ((Document.save (Document.construct "doc-1" "wg-1" "ada@example.com" "Ada" "Lovelace")
      { store := [], fs := [], log := [] }
      { downloadRes := Except.ok "bytes", writeOk := true, ssGetOk := true,
        ssWriteOk := true, ssFreshKey := "K1", getNodeRes := Except.ok { name := "a.docx" },
        rmUpdateOk := true, rmFreshKey := "K2", rmDeleteOk := true }).2.1.log).take 4
      = [Ev.download "doc-1", Ev.fileWrite (filePathOf "doc-1"),
         Ev.storeCreate "doc-1" DocState.downloaded, Ev.getNode "doc-1"] :=
  ⟨rfl, rfl⟩

/-- **C7** (amended): the hardened `save` performs the download first (no
`downloading` state is ever written), then the cache byte write, then the
single durable state write — which writes `downloaded`, after the byte
write but before the metadata refresh — then the metadata refresh, and
publishes the success notification as the terminal step. -/
theorem save_success_event_order
    (doc : Doc) (w : World) (o : SaveOracle) (bytes : String) (node : NodeMeta)
    (hdl : o.downloadRes = Except.ok bytes)
    (hw : o.writeOk = true)
    (hg : o.ssGetOk = true)
    (hsw2 : o.ssWriteOk = true)
    (hn : o.getNodeRes = Except.ok node) :
    ∃ d2 sw,
      (Document.save doc w o).2.2 = none ∧
      (Document.save doc w o).2.1.log =
        w.log ++ [Ev.download doc.uuid, Ev.fileWrite doc.filePath, sw,
          Ev.getNode doc.uuid, Ev.publishDownloaded d2] ∧
      (sw = Ev.storeUpdate doc.uuid DocState.downloaded ∨
        sw = Ev.storeCreate doc.uuid DocState.downloaded) := by
  have hdow1 : Document.isDownloaded { doc with state := some DocState.downloaded }
      (writeFilePath w.fs doc.filePath) = true := by
    simp [Document.isDownloaded, existsSync, List.elem_iff, mem_writeFilePath]
  have hdow2 : Document.isDownloaded
      { doc with state := some DocState.downloaded, key := some o.ssFreshKey }
      (writeFilePath w.fs doc.filePath) = true := by
    simp [Document.isDownloaded, existsSync, List.elem_iff, mem_writeFilePath]
  unfold Document.save
  rw [hdl]
  cases hfind : Files.getByUuid w.store doc.uuid with
  | some r =>
      refine ⟨{ doc with
          state := some DocState.downloaded
          name := node.name
          fileType := getFileExtension node.name
          documentType := getFileType node.name
          downloadUrlPath := some ("/files/" ++ doc.uuid)
          callbackUrlPath := some ("/api/documents/track?workGroupUuid="
            ++ doc.workGroup ++ "&documentUuid=" ++ doc.uuid) },
        Ev.storeUpdate doc.uuid DocState.downloaded, ?_, ?_, Or.inl rfl⟩ <;>
        simp [hw, hg, hsw2, Document.setState, hfind,
          Document.populateMetadata, hn, hdow1]
  | none =>
      refine ⟨{ doc with
          state := some DocState.downloaded
          key := some o.ssFreshKey
          name := node.name
          fileType := getFileExtension node.name
          documentType := getFileType node.name
          downloadUrlPath := some ("/files/" ++ doc.uuid)
          callbackUrlPath := some ("/api/documents/track?workGroupUuid="
            ++ doc.workGroup ++ "&documentUuid=" ++ doc.uuid) },
        Ev.storeCreate doc.uuid DocState.downloaded, ?_, ?_, Or.inr rfl⟩ <;>
        simp [hw, hg, hsw2, Document.setState, hfind,
          Document.populateMetadata, hn, hdow2]

/-- **C7** (witness): the success ordering theorem at a concrete all-good
oracle on an empty world. -/
theorem save_success_event_order_witness :
    ∃ d2 sw,
      (Document.save (Document.construct "doc-1" "wg-1" "ada@example.com" "Ada" "Lovelace")
        { store := [], fs := [], log := [] }
        { downloadRes := Except.ok "bytes", writeOk := true, ssGetOk := true,
          ssWriteOk := true, ssFreshKey := "K1",
          getNodeRes := Except.ok { name := "a.docx" },
          rmUpdateOk := true, rmFreshKey := "K2", rmDeleteOk := true }).2.2 = none ∧
      (Document.save (Document.construct "doc-1" "wg-1" "ada@example.com" "Ada" "Lovelace")
        { store := [], fs := [], log := [] }
        { downloadRes := Except.ok "bytes", writeOk := true, ssGetOk := true,
          ssWriteOk := true, ssFreshKey := "K1",
          getNodeRes := Except.ok { name := "a.docx" },
          rmUpdateOk := true, rmFreshKey := "K2", rmDeleteOk := true }).2.1.log =
        [] ++ [Ev.download "doc-1",
          Ev.fileWrite (Document.construct "doc-1" "wg-1" "ada@example.com" "Ada" "Lovelace").filePath,
          sw, Ev.getNode "doc-1", Ev.publishDownloaded d2] ∧
      (sw = Ev.storeUpdate "doc-1" DocState.downloaded ∨
        sw = Ev.storeCreate "doc-1" DocState.downloaded) :=
  save_success_event_order
    (Document.construct "doc-1" "wg-1" "ada@example.com" "Ada" "Lovelace")
    { store := [], fs := [], log := [] }
    { downloadRes := Except.ok "bytes", writeOk := true, ssGetOk := true,
      ssWriteOk := true, ssFreshKey := "K1",
      getNodeRes := Except.ok { name := "a.docx" },
      rmUpdateOk := true, rmFreshKey := "K2", rmDeleteOk := true }
    "bytes" { name := "a.docx" } rfl rfl rfl rfl rfl

/-- **C4**: at the concrete failing input flagged by the source's own TODO
comment — the download fails and the rollback's store update also fails —
the hardened `save` re-raises the rollback error instead of the original
download error, publishes no failure notification, and leaves the store
unchanged (no `removed` record, no rotated key). -/
theorem save_rollback_gap_eval :
    (Document.save (Document.construct "doc-1" "wg-1" "" "" "")
      { store := [], fs := [], log := [] }
      { downloadRes := Except.error "ECONNRESET", writeOk := true, ssGetOk := true,
        ssWriteOk := true, ssFreshKey := "K1", getNodeRes := Except.ok { name := "a.docx" },
        rmUpdateOk := false, rmFreshKey := "K2", rmDeleteOk := true }).2.2
      = some SaveError.removeUpdate ∧
    (Document.save (Document.construct "doc-1" "wg-1" "" "" "")
      { store := [], fs := [], log := [] }
      { downloadRes := Except.error "ECONNRESET", writeOk := true, ssGetOk := true,
        ssWriteOk := true, ssFreshKey := "K1", getNodeRes := Except.ok { name := "a.docx" },
        rmUpdateOk := false, rmFreshKey := "K2", rmDeleteOk := true }).2.1.log
      = [Ev.download "doc-1"] ∧
    (Document.save (Document.construct "doc-1" "wg-1" "" "" "")
      { store := [], fs := [], log := [] }
      { downloadRes := Except.error "ECONNRESET", writeOk := true, ssGetOk := true,
        ssWriteOk := true, ssFreshKey := "K1", getNodeRes := Except.ok { name := "a.docx" },
        rmUpdateOk := false, rmFreshKey := "K2", rmDeleteOk := true }).2.1.store = [] :=
  ⟨rfl, rfl, rfl⟩
